import Mathlib

/-!
Verification of the KPI processing pipeline of `app.py` against its
specification.  The pipeline is embedded shallowly: the in-memory table is a
`List Row`, each derived column is a pure function of the row (per-row
derivations in the source have no cross-row dependence), and the two
row-removing stages are list filters.  Numeric columns are modelled with `ℚ`;
the one place where IEEE-754 special values are decision-relevant (the
division `MTTR / SLAMTTR`, which produces `inf`/`-inf`/`NaN` when
`SLAMTTR = 0`) is modelled explicitly with the `PFloat` type.
-/

namespace KPI

/-- A successfully parsed timestamp (the result of `pd.to_datetime` with
`errors="coerce"` on one cell).  Parsing itself is outside the modelled core;
a raw cell is modelled as `Option Timestamp`, `none` standing for a missing or
unparseable value (NaT).  `seconds` is the absolute time used for timestamp
subtraction; `year` and `month` (1–12) are the fields `.dt.year` and
`.dt.strftime("%B")` read. -/
structure Timestamp where
  year : Int
  month : Nat
  seconds : ℚ
deriving DecidableEq, Repr

/-- One input row, restricted to the columns the modelled stages consume
(lines 33–41 of `app.py` keep 26 columns; the others are carried through
untouched and are irrelevant to every claim).  Every field is optional:
no input field is guaranteed present. -/
structure Row where
  ticketNumberSWFM : Option String := none
  severity : Option String := none
  typeTicket : Option String := none
  occuredTime : Option Timestamp := none
  picTakeOverTicket : Option String := none
  nop : Option String := none
  regional : Option String := none
  area : Option String := none
  clearedTime : Option Timestamp := none
  checkInAt : Option String := none
  faultLevel : Option String := none
  isExcludedInKPI : Option String := none
  siteClearedOn : Option Timestamp := none
  rcaValidated : Option String := none
  ticketSWFMStatus : Option String := none
deriving DecidableEq, Repr

/-- Line 44: `df["Is Excluded In KPI"].str.upper() != "YES"`.  A missing value
propagates as NaN through `.str.upper()` and `NaN != "YES"` is True, so null
rows are kept; this function is the complement (True when the row is
dropped). -/
def isExcludedYes (r : Row) : Bool :=
  match r.isExcludedInKPI with
  | some s => s.toUpper == "YES"
  | none => false

/-- Line 44: the exclusion filter. -/
def afterExclusion (rows : List Row) : List Row :=
  rows.filter (fun r => ! isExcludedYes r)

/-- `strftime("%B")`: full English month name. -/
def monthName : Nat → String
  | 1 => "January" | 2 => "February" | 3 => "March" | 4 => "April"
  | 5 => "May" | 6 => "June" | 7 => "July" | 8 => "August"
  | 9 => "September" | 10 => "October" | 11 => "November" | 12 => "December"
  | _ => ""

/-- Line 48: `Month = strftime("%B") of Occured Time`; NaT gives a
missing value. -/
def month (r : Row) : Option String :=
  r.occuredTime.map (fun t => monthName t.month)

/-- Line 49: `Year = year of Occured Time`; NaT gives a missing
value. -/
def year (r : Row) : Option Int :=
  r.occuredTime.map (fun t => t.year)

/-- Lines 52–59: the `fault_mapping` dictionary, all 15 entries in source
order. -/
def fault_mapping : List (String × String) :=
  [("Controller P2", "B22"), ("Controller P1", "B22"),
   ("Enva Controller", "B21"), ("Enva Site", "B21"), ("Enva Site GSB", "B21"),
   ("Enva Site Simpul", "B21"), ("Enva Site VIP", "B21"),
   ("L2 Configuration", "B3"), ("P1", "B23"), ("P1 VIP", "B23"),
   ("P2", "B3"), ("P2 VIP", "B3"), ("Vandalism", "B3"),
   ("L2 License", "B3"), ("P3", "B3")]

/-- Line 60: `OldKPI = Fault Level mapped through fault_mapping`; a missing
or unmapped fault level gives a missing OldKPI. -/
def mappedKPI (r : Row) : Option String :=
  r.faultLevel.bind (fun f => fault_mapping.lookup f)

/-- Line 61: `rows with Type Ticket "Incident" get OldKPI "B1"` — the
incident override, applied after the lookup. -/
def oldKPI (r : Row) : Option String :=
  if r.typeTicket = some "Incident" then some "B1" else mappedKPI r

/-- Line 70: `Site Cleared On fillna Cleared Time` — the
clearance timestamp used by MTTR. -/
def effectiveCleared (r : Row) : Option Timestamp :=
  match r.siteClearedOn with
  | some t => some t
  | none => r.clearedTime

/-- Lines 69–72: MTTR in hours.  A NaT on either side of the subtraction
propagates to NaN and line 72 `fillna(0)` turns it into 0. -/
def mttr (r : Row) : ℚ :=
  match effectiveCleared r, r.occuredTime with
  | some c, some o => (c.seconds - o.seconds) / 3600
  | _, _ => 0

/-- Lines 75–80: the `slamap` dictionary keyed by (Type Ticket, Severity). -/
def slamap : List ((String × String) × Nat) :=
  [(("Incident", "Critical"), 4), (("Incident", "Major"), 8),
   (("Incident", "Minor"), 10), (("Incident", "Low"), 13),
   (("Event", "Critical"), 2), (("Event", "Major"), 4),
   (("Event", "Minor"), 15), (("Event", "Low"), 48)]

/-- Line 81: `slamap.get((Type Ticket, Severity), 0)`.  A
missing ticket type or severity is never a key of the dictionary, so it falls
back to the default 0. -/
def slamttr (r : Row) : Nat :=
  match r.typeTicket, r.severity with
  | some t, some s => (slamap.lookup (t, s)).getD 0
  | _, _ => 0

/-- A float64 value as far as this pipeline can observe it: a finite value
(exact arithmetic stands in for rounding, which no claim at this granularity
reaches), or one of the IEEE-754 special values produced by division by
zero. -/
inductive PFloat where
  | val : ℚ → PFloat
  | inf : PFloat
  | negInf : PFloat
  | nan : PFloat
deriving DecidableEq, Repr

/-- Line 84: `ScoreMTTR = MTTR / SLAMTTR` under IEEE-754
semantics: dividing a positive number by 0 gives `inf`, a negative number
gives `-inf`, and `0 / 0` gives `NaN`. -/
def rawScoreMTTR (r : Row) : PFloat :=
  if slamttr r = 0 then
    if 0 < mttr r then PFloat.inf
    else if mttr r < 0 then PFloat.negInf
    else PFloat.nan
  else PFloat.val (mttr r / (slamttr r : ℚ))

/-- Line 85: `min(x, 1.5) if x > 0 else 0`.  Note `inf > 0` is True and
`min(inf, 1.5) = 1.5`, while `NaN > 0` and `-inf > 0` are False. -/
def scoreMTTR (r : Row) : ℚ :=
  match rawScoreMTTR r with
  | PFloat.val q => if 0 < q then min q (3/2) else 0
  | PFloat.inf => 3/2
  | PFloat.negInf => 0
  | PFloat.nan => 0

/-- Line 88: Handling is "Autoclear" when `PIC Take Over Ticket` is missing,
else "Takeover". -/
def handling (r : Row) : String :=
  match r.picTakeOverTicket with
  | none => "Autoclear"
  | some _ => "Takeover"

/-- Line 89: `(Takeover: 0.3, Autoclear: 0)` applied to Handling. -/
def scoreTO (r : Row) : ℚ :=
  if handling r = "Takeover" then 3/10 else 0

/-- Line 92: the noise-filter predicate `Handling == "Autoclear" and
MTTR < 1`. -/
def isNoise (r : Row) : Bool :=
  handling r == "Autoclear" && decide (mttr r < 1)

/-- Lines 44 and 92 together: the row set of the Processed table after both
row-removing stages.  Every later stage of the source only adds derived
columns (functions of the row, above and below) or aggregates, so this is the
row set of the Processed table from line 92 on. -/
def processed (rows : List Row) : List Row :=
  (afterExclusion rows).filter (fun r => ! isNoise r)

/-- Line 95: Visitation from presence of `Check In At`. -/
def visitation (r : Row) : String :=
  match r.checkInAt with
  | some _ => "Visit"
  | none => "NoVisit"

/-- Line 96: `(Visit: 0.5, NoVisit: 0)` applied to Visitation. -/
def scoreVisit (r : Row) : ℚ :=
  if visitation r = "Visit" then 1/2 else 0

/-- Line 99: `map((Yes: 0.1, No: 0)).fillna(0)`: "Yes" gives 0.1, "No"
gives 0, anything else maps to NaN and `fillna(0)` turns it into 0. -/
def scoreRCA (r : Row) : ℚ :=
  ((r.rcaValidated.bind
      (fun s => ([("Yes", (1/10 : ℚ)), ("No", 0)]).lookup s)).getD 0)

/-- Line 102: 0.1 when `Ticket SWFM Status` equals "Closed", else 0. -/
def scoreClosed (r : Row) : ℚ :=
  if r.ticketSWFMStatus = some "Closed" then 1/10 else 0

/-- Line 105: the composite SCORE. -/
def score (r : Row) : ℚ :=
  (scoreTO r + scoreVisit r + scoreRCA r + scoreClosed r) * scoreMTTR r

/-- The seven grouping dimensions of the summary `groupby` (line 109). -/
structure GroupKey where
  month : String
  year : Int
  area : String
  regional : String
  nop : String
  oldKPI : String
  severity : String
deriving DecidableEq, Repr

/-- The grouping key of a row, `none` when any of the seven dimensions is
missing — pandas `groupby` (default `dropna=True`) assigns such a row to no
group. -/
def groupKey (r : Row) : Option GroupKey :=
  match month r, year r, r.area, r.regional, r.nop, oldKPI r, r.severity with
  | some m, some y, some a, some g, some n, some o, some s =>
      some ⟨m, y, a, g, n, o, s⟩
  | _, _, _, _, _, _, _ => none

/-- The distinct grouping keys occurring in the table (one summary row per
key; output order is presentational). -/
def summaryKeys (rows : List Row) : List GroupKey :=
  (rows.filterMap groupKey).dedup

/-- The rows of one group. -/
def groupRows (rows : List Row) (k : GroupKey) : List Row :=
  rows.filter (fun r => decide (groupKey r = some k))

/-- One row of the Summary table (lines 108–114). -/
structure SummaryRow where
  key : GroupKey
  ticketCount : Nat
  avgScore : ℚ
  sumScore : ℚ
deriving DecidableEq, Repr

/-- Lines 110–113: the aggregates of one group.  `Ticket_Count` is
`(Ticket Number SWFM, count)`, which counts the non-null values, within the group,
of that column. -/
def summaryRow (rows : List Row) (k : GroupKey) : SummaryRow :=
  { key := k
    ticketCount := (groupRows rows k).countP (fun r => r.ticketNumberSWFM.isSome)
    avgScore := ((groupRows rows k).map score).sum / ((groupRows rows k).length : ℚ)
    sumScore := ((groupRows rows k).map score).sum }

/-- Lines 108–114: the Summary table of a (processed) table. -/
def summary (rows : List Row) : List SummaryRow :=
  (summaryKeys rows).map (summaryRow rows)

/-- Lines 137–140: the Regional option set offered by the cascading filter,
computed from the Processed table `df`.  `sorted(...)` only orders the
options; the model keeps the deduplicated list (every claim about the options
is at the level of the underlying set). -/
def regionalOptions (rows : List Row) (selectedArea : String) : List String :=
  if selectedArea ≠ "All" then
    ((rows.filter (fun r => decide (r.area = some selectedArea))).filterMap
      (fun r => r.regional)).dedup
  else (rows.filterMap (fun r => r.regional)).dedup

/-! ## Concrete rows used by counterexamples and witnesses -/

/-- A ticket with a (Type Ticket, Severity) pair outside `slamap` and a
positive two-hour MTTR. -/
def c1row : Row :=
  { typeTicket := some "Incident", severity := some "Unknown",
    occuredTime := some ⟨2024, 1, 0⟩, clearedTime := some ⟨2024, 1, 7200⟩ }

/-- A taken-over ticket whose clearance timestamp lies two hours before its
occurrence timestamp. -/
def c2row : Row :=
  { occuredTime := some ⟨2024, 1, 36000⟩, clearedTime := some ⟨2024, 1, 28800⟩,
    picTakeOverTicket := some "X" }

/-- A row that survives both filters and has every grouping dimension except
OldKPI: its fault level "P9" is unmapped and it is not an Incident. -/
def c3row : Row :=
  { ticketNumberSWFM := some "T1", severity := some "Minor",
    typeTicket := some "Event", occuredTime := some ⟨2024, 1, 0⟩,
    picTakeOverTicket := some "X", nop := some "N", regional := some "R",
    area := some "A", clearedTime := some ⟨2024, 1, 7200⟩,
    faultLevel := some "P9" }

/-- A non-Incident ticket whose fault level is the code's fifteenth map entry,
the one absent from the 14-entry table of the spec. -/
def c4row : Row :=
  { typeTicket := some "Event", faultLevel := some "Enva Site VIP" }

/-- A taken-over ticket used to instantiate universally quantified theorems. -/
def c6row : Row :=
  { picTakeOverTicket := some "X" }

/-- A ticket with no Site Cleared On, a Cleared Time of 7200 s and an Occured
Time of 0 s. -/
def c7row : Row :=
  { occuredTime := some ⟨2024, 1, 0⟩, clearedTime := some ⟨2024, 1, 7200⟩ }

/-- A ticket whose exclusion flag is a lower-case "yes". -/
def c8row : Row :=
  { isExcludedInKPI := some "yes" }

/-! ## Shared lemmas -/

/-- The post-processing of line 85 keeps every ScoreMTTR inside [0, 3/2]. -/
theorem scoreMTTR_bounds (r : Row) : 0 ≤ scoreMTTR r ∧ scoreMTTR r ≤ 3/2 := by
  unfold scoreMTTR
  cases hraw : rawScoreMTTR r with
  | val q =>
      by_cases hq : 0 < q
      · simp only [hq, if_true]
        exact ⟨le_min hq.le (by norm_num), min_le_right _ _⟩
      · simp only [hq, if_false]
        norm_num
  | inf => norm_num
  | negInf => norm_num
  | nan => norm_num

/-- ScoreTO is 0 or 3/10. -/
theorem scoreTO_bounds (r : Row) : 0 ≤ scoreTO r ∧ scoreTO r ≤ 3/10 := by
  unfold scoreTO
  split <;> norm_num

/-- ScoreVisit is 0 or 1/2. -/
theorem scoreVisit_bounds (r : Row) : 0 ≤ scoreVisit r ∧ scoreVisit r ≤ 1/2 := by
  unfold scoreVisit
  split <;> norm_num

/-- ScoreRCA is 0 or 1/10. -/
theorem scoreRCA_bounds (r : Row) : 0 ≤ scoreRCA r ∧ scoreRCA r ≤ 1/10 := by
  unfold scoreRCA
  cases r.rcaValidated with
  | none => norm_num
  | some s =>
      simp only [Option.bind_some, List.lookup]
      cases hy : s == "Yes" <;> cases hn : s == "No" <;>
        simp [hy, hn]

/-- ScoreClosed is 0 or 1/10. -/
theorem scoreClosed_bounds (r : Row) : 0 ≤ scoreClosed r ∧ scoreClosed r ≤ 1/10 := by
  unfold scoreClosed
  split <;> norm_num

/-- The composite SCORE of any row lies in [0, 3/2]. -/
theorem score_bounds (r : Row) : 0 ≤ score r ∧ score r ≤ 3/2 := by
  obtain ⟨hm0, hm1⟩ := scoreMTTR_bounds r
  obtain ⟨ht0, ht1⟩ := scoreTO_bounds r
  obtain ⟨hv0, hv1⟩ := scoreVisit_bounds r
  obtain ⟨hr0, hr1⟩ := scoreRCA_bounds r
  obtain ⟨hc0, hc1⟩ := scoreClosed_bounds r
  unfold score
  constructor
  · exact mul_nonneg (by linarith) hm0
  · calc (scoreTO r + scoreVisit r + scoreRCA r + scoreClosed r) * scoreMTTR r
        ≤ 1 * scoreMTTR r := by
          apply mul_le_mul_of_nonneg_right _ hm0
          linarith
      _ = scoreMTTR r := one_mul _
      _ ≤ 3/2 := hm1

/-- Membership in the processed table implies membership in the input and
rejection by neither filter. -/
theorem mem_processed (rows : List Row) (r : Row) (h : r ∈ processed rows) :
    r ∈ rows ∧ isExcludedYes r = false ∧ isNoise r = false := by
  unfold processed afterExclusion at h
  rw [List.mem_filter] at h
  obtain ⟨h1, h2⟩ := h
  rw [List.mem_filter] at h1
  obtain ⟨h3, h4⟩ := h1
  exact ⟨h3, by simpa using h4, by simpa using h2⟩

/-! ## Claim C1 -/

/-- Claim C1 as frozen is false: for the row `c1row`, the (Type Ticket,
Severity) pair ("Incident", "Unknown") is absent from the SLA table, so
SLAMTTR is 0, yet ScoreMTTR is 3/2 rather than 0, because the IEEE division
2 / 0 gives `inf`, `inf > 0` is True, and `min(inf, 1.5)` is 1.5. -/
theorem scoreMTTR_sla_miss_not_zero :
    slamap.lookup ("Incident", "Unknown") = none ∧
    slamttr c1row = 0 ∧ mttr c1row = 2 ∧ scoreMTTR c1row = 3/2 := by
  refine ⟨by decide, by decide, ?_, ?_⟩
  · simp [mttr, effectiveCleared, c1row]
    norm_num
  · have h1 : mttr c1row = 2 := by
      simp [mttr, effectiveCleared, c1row]
      norm_num
    have h2 : slamttr c1row = 0 := by decide
    simp [scoreMTTR, rawScoreMTTR, h1, h2]

/-- Claim C1, amended: when the (Type Ticket, Severity) pair is absent from
the SLA table (SLAMTTR = 0), ScoreMTTR is 3/2 if the row's MTTR is positive
and 0 otherwise — not 0 regardless of MTTR. -/
theorem scoreMTTR_of_sla_miss (r : Row) (h : slamttr r = 0) :
    scoreMTTR r = if 0 < mttr r then 3/2 else 0 := by
  unfold scoreMTTR rawScoreMTTR
  rw [h]
  by_cases h1 : 0 < mttr r
  · simp [h1]
  · by_cases h2 : mttr r < 0 <;> simp [h1, h2]

/-- Witness for the amended claim C1 at the concrete row `c1row`. -/
theorem scoreMTTR_of_sla_miss_witness :
    scoreMTTR c1row = if 0 < mttr c1row then 3/2 else 0 :=
  scoreMTTR_of_sla_miss c1row (by decide)

/-! ## Claim C2 -/

/-- Claim C2 as frozen is false: the row `c2row` survives both filters (it is
a member of the processed table built from it alone), both its clearance and
occurrence timestamps are present, and its MTTR is -2 hours, a negative
value. -/
theorem processed_mttr_negative :
    c2row ∈ processed [c2row] ∧ c2row.clearedTime.isSome ∧
    c2row.occuredTime.isSome ∧ mttr c2row = -2 := by
  refine ⟨?_, by decide, by decide, ?_⟩
  · simp [processed, afterExclusion, isExcludedYes, isNoise, handling, c2row]
  · simp [mttr, effectiveCleared, c2row]
    norm_num

/-- Claim C2, amended: for every row of the processed table, SLAMTTR ≥ 0
always holds, and MTTR is negative exactly when both sides of the subtraction
are present and the effective clearance timestamp is strictly earlier than
the occurrence timestamp; in every other case (in particular whenever either
side is missing) MTTR ≥ 0. -/
theorem processed_mttr_sign (rows : List Row) (r : Row)
    (_h : r ∈ processed rows) :
    0 ≤ slamttr r ∧
    (mttr r < 0 ↔ ∃ c o, effectiveCleared r = some c ∧
      r.occuredTime = some o ∧ c.seconds < o.seconds) := by
  refine ⟨Nat.zero_le _, ?_⟩
  unfold mttr
  cases heff : effectiveCleared r with
  | none => simp
  | some c =>
      cases hocc : r.occuredTime with
      | none => simp
      | some o =>
          simp only [Option.some.injEq]
          constructor
          · intro hlt
            refine ⟨c, o, rfl, rfl, ?_⟩
            have h3600 : (0:ℚ) < 3600 := by norm_num
            by_contra hge
            push_neg at hge
            have : 0 ≤ (c.seconds - o.seconds) / 3600 :=
              div_nonneg (by linarith) h3600.le
            linarith
          · rintro ⟨c', o', hc, ho, hlt⟩
            subst hc
            subst ho
            have h3600 : (0:ℚ) < 3600 := by norm_num
            exact div_neg_of_neg_of_pos (by linarith) h3600

/-- Witness for the amended claim C2 at the concrete row `c2row`. -/
theorem processed_mttr_sign_witness :
    0 ≤ slamttr c2row ∧
    (mttr c2row < 0 ↔ ∃ c o, effectiveCleared c2row = some c ∧
      c2row.occuredTime = some o ∧ c.seconds < o.seconds) :=
  processed_mttr_sign [c2row] c2row
    (by simp [processed, afterExclusion, isExcludedYes, isNoise, handling, c2row])

/-! ## Claim C4 -/

/-- The 14-entry Fault Level → OldKPI table exactly as the spec lists it in
section 4.3, in the order of the spec sentence. -/
def specFaultMapping : List (String × String) :=
  [("Controller P2", "B22"), ("Controller P1", "B22"),
   ("Enva Controller", "B21"), ("Enva Site", "B21"), ("Enva Site GSB", "B21"),
   ("Enva Site Simpul", "B21"), ("L2 Configuration", "B3"), ("P1", "B23"),
   ("P1 VIP", "B23"), ("P2", "B3"), ("P2 VIP", "B3"), ("Vandalism", "B3"),
   ("L2 License", "B3"), ("P3", "B3")]

/-- Modelled from the amended claim: the 14-entry table of the spec with the
entry ("Enva Site VIP", "B21") — present in the code but missing from the
spec — inserted after "Enva Site Simpul". -/
def specFaultMapping15 : List (String × String) :=
  [("Controller P2", "B22"), ("Controller P1", "B22"),
   ("Enva Controller", "B21"), ("Enva Site", "B21"), ("Enva Site GSB", "B21"),
   ("Enva Site Simpul", "B21"), ("Enva Site VIP", "B21"),
   ("L2 Configuration", "B3"), ("P1", "B23"), ("P1 VIP", "B23"),
   ("P2", "B3"), ("P2 VIP", "B3"), ("Vandalism", "B3"),
   ("L2 License", "B3"), ("P3", "B3")]

/-- Claim C4 as frozen is false: the fault level "Enva Site VIP" is outside
the 14-entry table given by the spec, so the claim demands a null OldKPI for
the non-Incident row `c4row`, but the code maps it to "B21" (its
`fault_mapping` has a fifteenth entry). -/
theorem oldKPI_not_fourteen_entry_map :
    specFaultMapping.lookup "Enva Site VIP" = none ∧
    c4row.typeTicket ≠ some "Incident" ∧
    oldKPI c4row = some "B21" := by
  refine ⟨by decide, by decide, by decide⟩

/-- Claim C4, amended: OldKPI is obtained by looking up Fault Level in the
15-entry static map (the 14 entries of the spec plus Enva Site VIP → B21),
every Fault Level outside that map yields a null OldKPI, and afterwards a
Type Ticket of "Incident" forces OldKPI to "B1" regardless of Fault Level. -/
theorem oldKPI_fifteen_entry_map (r : Row) :
    (r.typeTicket = some "Incident" → oldKPI r = some "B1") ∧
    (r.typeTicket ≠ some "Incident" →
      oldKPI r = r.faultLevel.bind (fun f => specFaultMapping15.lookup f)) := by
  constructor
  · intro h
    simp [oldKPI, h]
  · intro h
    have hmap : fault_mapping = specFaultMapping15 := rfl
    simp [oldKPI, h, mappedKPI, hmap]

/-- Witness for the amended claim C4 at the concrete row `c4row`. -/
theorem oldKPI_fifteen_entry_map_witness :
    oldKPI c4row = c4row.faultLevel.bind (fun f => specFaultMapping15.lookup f) :=
  (oldKPI_fifteen_entry_map c4row).2 (by decide)

/-! ## Claim C6 -/

/-- Claim C6: after the noise filter no row with Handling "Autoclear" and
MTTR < 1 exists in the Processed table, nor in any group that the Summary
stage aggregates (every later stage only derives per-row fields, so the row
set never changes after line 92). -/
theorem processed_no_trivial_autoclear (rows : List Row) (r : Row)
    (h : r ∈ processed rows ∨ ∃ k, r ∈ groupRows (processed rows) k) :
    ¬(handling r = "Autoclear" ∧ mttr r < 1) := by
  have hp : r ∈ processed rows := by
    rcases h with h | ⟨k, hk⟩
    · exact h
    · exact (List.mem_filter.mp hk).1
  obtain ⟨-, -, hnoise⟩ := mem_processed rows r hp
  unfold isNoise at hnoise
  rintro ⟨hh, hm⟩
  rw [Bool.and_eq_false_iff] at hnoise
  rcases hnoise with hb | hb
  · exact absurd hh (by simpa using hb)
  · exact absurd hm (by simpa using hb)

/-- Witness for claim C6 at the concrete row `c6row`. -/
theorem processed_no_trivial_autoclear_witness :
    ¬(handling c6row = "Autoclear" ∧ mttr c6row < 1) :=
  processed_no_trivial_autoclear [c6row] c6row
    (Or.inl (by simp [processed, afterExclusion, isExcludedYes, isNoise,
      handling, c6row]))

/-! ## Claim C7 -/

/-- Claim C7: MTTR equals (Site Cleared On if present, else Cleared Time)
minus Occured Time, in hours, and is 0 whenever either side of the
subtraction is missing. -/
theorem mttr_formula (r : Row) :
    (r.siteClearedOn.isSome → effectiveCleared r = r.siteClearedOn) ∧
    (r.siteClearedOn = none → effectiveCleared r = r.clearedTime) ∧
    (∀ c o, effectiveCleared r = some c → r.occuredTime = some o →
      mttr r = (c.seconds - o.seconds) / 3600) ∧
    ((effectiveCleared r = none ∨ r.occuredTime = none) → mttr r = 0) := by
  refine ⟨?_, ?_, ?_, ?_⟩
  · intro h
    unfold effectiveCleared
    cases hs : r.siteClearedOn with
    | none => rw [hs] at h; exact absurd h (by simp)
    | some t => rfl
  · intro h
    unfold effectiveCleared
    rw [h]
  · intro c o hc ho
    unfold mttr
    rw [hc, ho]
  · intro h
    unfold mttr
    rcases h with h | h <;> rw [h] <;>
      first
        | rfl
        | (cases effectiveCleared r <;> rfl)

/-- Witness for claim C7 at the concrete row `c7row` (Site Cleared On absent,
Cleared Time 7200 s, Occured Time 0 s). -/
theorem mttr_formula_witness :
    mttr c7row = ((⟨2024, 1, 7200⟩ : Timestamp).seconds -
      (⟨2024, 1, 0⟩ : Timestamp).seconds) / 3600 :=
  (mttr_formula c7row).2.2.1 ⟨2024, 1, 7200⟩ ⟨2024, 1, 0⟩ rfl rfl

/-! ## Claim C8 -/

/-- Claim C8: the exclusion filter drops exactly the rows whose exclusion
flag, compared case-insensitively, equals "YES"; rows with a missing flag are
kept; and the surviving rows form a sublist of the input, so no field of any
surviving row is changed. -/
theorem afterExclusion_spec (rows : List Row) :
    (afterExclusion rows).Sublist rows ∧
    ∀ r ∈ rows, (r ∈ afterExclusion rows ↔
      ¬∃ s, r.isExcludedInKPI = some s ∧ s.toUpper = "YES") := by
  constructor
  · exact List.filter_sublist rows
  · intro r hr
    unfold afterExclusion
    rw [List.mem_filter]
    unfold isExcludedYes
    cases hex : r.isExcludedInKPI with
    | none => simp [hr]
    | some s => simp [hr]

/-- Witness for claim C8 at the concrete row `c8row`, whose flag "yes"
matches "YES" case-insensitively, so the row is dropped. -/
theorem afterExclusion_spec_witness :
    c8row ∈ afterExclusion [c8row] ↔
      ¬∃ s, c8row.isExcludedInKPI = some s ∧ s.toUpper = "YES" :=
  (afterExclusion_spec [c8row]).2 c8row (by simp)

/-! ## Claim C5 -/

/-- A taken-over ticket used to instantiate the SCORE range theorem. -/
def c5row : Row :=
  { picTakeOverTicket := some "P" }

/-- Claim C5: every row of the Processed table has SCORE in [0, 3/2]. -/
theorem processed_score_range (rows : List Row) (r : Row)
    (_h : r ∈ processed rows) :
    0 ≤ score r ∧ score r ≤ 3/2 :=
  score_bounds r

/-- Witness for claim C5 at the concrete row `c5row`. -/
theorem processed_score_range_witness :
    0 ≤ score c5row ∧ score c5row ≤ 3/2 :=
  processed_score_range [c5row] c5row
    (by simp [processed, afterExclusion, isExcludedYes, isNoise, handling, c5row])

/-! ## Claim C9 -/

/-- Claim C9: selecting an Area other than "All" offers exactly the distinct
non-null Regional values of the Processed rows with that Area, and selecting
"All" offers the full set of distinct non-null Regional values. -/
theorem regionalOptions_spec (rows : List Row) (x s : String) :
    s ∈ regionalOptions rows x ↔
      (if x = "All" then ∃ r ∈ rows, r.regional = some s
       else ∃ r ∈ rows, r.area = some x ∧ r.regional = some s) := by
  unfold regionalOptions
  by_cases hx : x = "All"
  · simp [hx, List.mem_dedup, List.mem_filterMap]
  · simp only [hx, if_false, ne_eq, not_false_iff, if_true, List.mem_dedup,
      List.mem_filterMap, List.mem_filter, decide_eq_true_eq]
    constructor
    · rintro ⟨r, ⟨hr, ha⟩, hs⟩
      exact ⟨r, hr, ha, hs⟩
    · rintro ⟨r, hr, ha, hs⟩
      exact ⟨r, ⟨hr, ha⟩, hs⟩

/-! ## Claim C3 -/

/-- Deduplication does not change the underlying finite set. -/
theorem toFinset_dedup_eq {α : Type _} [DecidableEq α] (l : List α) :
    l.dedup.toFinset = l.toFinset := by
  ext a
  simp [List.mem_toFinset, List.mem_dedup]

/-- Summing, over a covering key set, the number of rows of each group that
satisfy a predicate counts exactly the keyed rows satisfying it. -/
theorem sum_group_countP (p : Row → Bool) (K : Finset GroupKey) :
    ∀ l : List Row, (∀ r ∈ l, ∀ k, groupKey r = some k → k ∈ K) →
      (∑ k ∈ K, l.countP (fun r => decide (groupKey r = some k) && p r))
        = l.countP (fun r => (groupKey r).isSome && p r) := by
  intro l
  induction l with
  | nil => simp
  | cons a t ih =>
      intro hcov
      have hcovt : ∀ r ∈ t, ∀ k, groupKey r = some k → k ∈ K :=
        fun r hr => hcov r (List.mem_cons_of_mem a hr)
      simp only [List.countP_cons]
      rw [Finset.sum_add_distrib, ih hcovt]
      congr 1
      cases hg : groupKey a with
      | none => simp [hg]
      | some k0 =>
          have hk0 : k0 ∈ K := hcov a (List.mem_cons_self a t) k0 hg
          cases hp : p a with
          | false => simp [hg, hp]
          | true =>
              simp only [hg, hp, Option.some.injEq, Bool.and_true,
                decide_eq_true_eq, Option.isSome_some, Bool.true_and, if_true]
              rw [Finset.sum_ite_eq K k0 (fun _ => 1)]
              simp [hk0]

/-- Claim C3 as frozen is false: for the one-row input `[c3row]`, the row
survives both filters, so the Processed table has one row, but its OldKPI is
null, `groupby` assigns it to no group, and the Summary table is empty: the
Ticket_Count total is 0, not 1. -/
theorem summary_count_misses_null_keys :
    ((summary (processed [c3row])).map (fun srow => srow.ticketCount)).sum = 0 ∧
    (processed [c3row]).length = 1 := by
  constructor
  · simp [summary, summaryKeys, processed, afterExclusion, isExcludedYes,
      isNoise, handling, groupKey, oldKPI, mappedKPI, fault_mapping, c3row,
      List.lookup, month, year]
  · simp [processed, afterExclusion, isExcludedYes, isNoise, handling, c3row]

/-- Claim C3, amended: the sum of Ticket_Count over the Summary rows equals
the number of Processed rows (after both filters) that have all seven
grouping dimensions non-null and a non-null Ticket Number SWFM — rows with a
null grouping dimension fall out of the groupby, and rows with a null ticket
number are not counted by the count aggregate. -/
theorem summary_ticketCount_total (rows : List Row) :
    ((summary (processed rows)).map (fun srow => srow.ticketCount)).sum
      = (processed rows).countP
          (fun r => (groupKey r).isSome && r.ticketNumberSWFM.isSome) := by
  set l := processed rows with hl
  have h1 : ((summary l).map (fun srow => srow.ticketCount)).sum
      = ((summaryKeys l).map (fun k =>
          (groupRows l k).countP (fun r => r.ticketNumberSWFM.isSome))).sum := by
    unfold summary summaryRow
    rw [List.map_map]
    rfl
  rw [h1]
  have h2 : ∀ k, (groupRows l k).countP (fun r => r.ticketNumberSWFM.isSome)
      = l.countP (fun r => decide (groupKey r = some k) &&
          r.ticketNumberSWFM.isSome) := by
    intro k
    unfold groupRows
    rw [List.countP_filter]
    apply List.countP_congr
    intro r _
    rw [Bool.and_comm]
  have h3 : ((summaryKeys l).map (fun k =>
        (groupRows l k).countP (fun r => r.ticketNumberSWFM.isSome))).sum
      = ∑ k ∈ (l.filterMap groupKey).toFinset,
          l.countP (fun r => decide (groupKey r = some k) &&
            r.ticketNumberSWFM.isSome) := by
    unfold summaryKeys
    rw [← toFinset_dedup_eq (l.filterMap groupKey),
      List.sum_toFinset _ (List.nodup_dedup _)]
    exact congrArg List.sum (List.map_congr_left (fun k _ => h2 k))
  rw [h3]
  apply sum_group_countP
  intro r hr k hk
  exact List.mem_toFinset.mpr (List.mem_filterMap.mpr ⟨r, hr, hk⟩)

/-! ## Claim C10 -/

/-- A row is assigned a grouping key exactly when all seven grouping
dimensions are non-null, and the key records them. -/
theorem of_groupKey_eq_some {r : Row} {k : GroupKey} (h : groupKey r = some k) :
    month r = some k.month ∧ year r = some k.year ∧ r.area = some k.area ∧
    r.regional = some k.regional ∧ r.nop = some k.nop ∧
    oldKPI r = some k.oldKPI ∧ r.severity = some k.severity := by
  unfold groupKey at h
  split at h
  · rename_i m y a g n o s hm hy ha hg hn ho hs
    cases h
    exact ⟨hm, hy, ha, hg, hn, ho, hs⟩
  · exact absurd h (by simp)

/-- Rows without a grouping key do not change the key list. -/
theorem filterMap_groupKey_filter (l : List Row) :
    (l.filter (fun r => (groupKey r).isSome)).filterMap groupKey
      = l.filterMap groupKey := by
  induction l with
  | nil => rfl
  | cons a t ih =>
      cases hg : groupKey a with
      | none => simp [List.filter_cons, hg, List.filterMap_cons, ih]
      | some k => simp [List.filter_cons, hg, List.filterMap_cons, ih]

/-- Rows without a grouping key belong to no group. -/
theorem groupRows_filter_isSome (l : List Row) (k : GroupKey) :
    groupRows (l.filter (fun r => (groupKey r).isSome)) k = groupRows l k := by
  unfold groupRows
  rw [List.filter_filter]
  apply List.filter_congr
  intro r _
  cases hg : groupKey r <;> simp [hg]

/-- Dropping the rows without a grouping key leaves the Summary table
unchanged. -/
theorem summary_filter_isSome (l : List Row) :
    summary (l.filter (fun r => (groupKey r).isSome)) = summary l := by
  unfold summary summaryKeys
  rw [filterMap_groupKey_filter]
  apply List.map_congr_left
  intro k _
  unfold summaryRow
  rw [groupRows_filter_isSome]

/-- Claim C10: every Summary row carries non-null values of all seven
grouping dimensions, witnessed by a Processed row realising them, and a
Processed row with a null in any grouping dimension contributes to no
Summary row: deleting all such rows leaves the Summary table unchanged. -/
theorem summary_keys_all_nonnull (rows : List Row) :
    (∀ srow ∈ summary (processed rows), ∃ r ∈ processed rows,
      month r = some srow.key.month ∧ year r = some srow.key.year ∧
      r.area = some srow.key.area ∧ r.regional = some srow.key.regional ∧
      r.nop = some srow.key.nop ∧ oldKPI r = some srow.key.oldKPI ∧
      r.severity = some srow.key.severity) ∧
    summary ((processed rows).filter (fun r => (groupKey r).isSome))
      = summary (processed rows) := by
  constructor
  · intro srow hs
    unfold summary at hs
    rw [List.mem_map] at hs
    obtain ⟨k, hk, rfl⟩ := hs
    unfold summaryKeys at hk
    rw [List.mem_dedup, List.mem_filterMap] at hk
    obtain ⟨r, hr, hgk⟩ := hk
    exact ⟨r, hr, of_groupKey_eq_some hgk⟩
  · exact summary_filter_isSome _

/-- Witness for claim C10 on the concrete one-row table `[c3row]`. -/
theorem summary_keys_all_nonnull_witness :
    summary ((processed [c3row]).filter (fun r => (groupKey r).isSome))
      = summary (processed [c3row]) :=
  (summary_keys_all_nonnull [c3row]).2

end KPI
